import Mathlib

/-!
Verification of the modernbert-semantic-search ingestion pipeline
(`backend/ingest_data.py`) and query bootstrap (`backend/query_engline.py`)
against its natural-language specification.

The Python source is shallowly embedded: pure data transformations become
Lean functions, the external services (sentence-transformers model, Milvus
client, filesystem) become explicit parameters or state, and the script's
control flow around them becomes trace-producing functions.  Float values
produced by the embedding model are never combined arithmetically by the
script (they are only moved around, and the only literal is the zero of the
fallback vector), so embedding scalars are modelled as `ℚ`.
-/

namespace ModernBertSearch

/-- An embedding vector as handed around by the script (a list of scalars). -/
abbrev Vec := List ℚ

/-! ## Corpus records and `combine_text` (ingest_data.py lines 42–50) -/

/-- A corpus row after projection to the two source columns
(`train_ds.select_columns(["title", "abstract"])`). -/
structure RawRecord where
  title : String
  abstract : String
deriving DecidableEq, Repr

/-- A corpus row after `combine_text` added the derived `text` column. -/
structure TextRecord where
  title : String
  abstract : String
  text : String
deriving DecidableEq, Repr

/-- `document_prefix = "search_document:"` (ingest_data.py line 42). -/
def documentMarker : String := "search_document:"

/-- `combine_text(row)`: sets `row["text"] = document_prefix + " " + row["title"]
+ " " + row["abstract"]` and returns the row (ingest_data.py lines 45–47). -/
def combine_text (row : RawRecord) : TextRecord :=
  { title := row.title
    abstract := row.abstract
    text := documentMarker ++ " " ++ row.title ++ " " ++ row.abstract }

/-! ## `generate_embeddings_batch` (ingest_data.py lines 56–80)

A Hugging Face batched-map batch is modelled by its `text` column:
`Option (List String)`, `none` standing for a batch object with no `text`
field at all.  The sentence-transformers model is modelled by its single-text
encoding function `enc : String → Vec` together with its output dimension
`D` (`model.get_sentence_embedding_dimension()`); a batched
`model.encode(texts)` call returns the per-text encodings in order, i.e.
`texts.map enc`. -/

/-- The re-expansion loop of `generate_embeddings_batch` (lines 70–77): walk
the original `text` column, drawing the next encoder output for each truthy
(non-empty) text and a `D`-zero vector for each empty text.  The source pulls
from `embedding_iter`; an exhausted iterator would raise `StopIteration`,
which cannot happen at the call site because the embeddings hold exactly one
vector per non-empty text (the model simply stops here, and the branch is
unreachable in the theorems below). -/
def reexpand (D : Nat) : List String → List Vec → List Vec
  | [], _ => []
  | t :: ts, embs =>
    if t == "" then
      List.replicate D 0 :: reexpand D ts embs
    else
      match embs with
      | [] => []
      | e :: es => e :: reexpand D ts es

/-- `generate_embeddings_batch(batch)` (lines 56–80): raises `ValueError` when
the batch has no `text` column; filters to the truthy texts; when none remain,
assigns `batch["embeddings"] = []` and returns early; otherwise encodes the
filtered texts in one call and re-expands the results over the original
column order.  The result is the batch: its `text` column and its new
`embeddings` column. -/
def generate_embeddings_batch (enc : String → Vec) (D : Nat)
    (batch : Option (List String)) : Except String (List String × List Vec) :=
  match batch with
  | none => .error "Input batch must contain a 'text' column."
  | some texts =>
    let texts_to_encode := texts.filter (fun t => !(t == ""))
    if texts_to_encode.isEmpty then
      .ok (texts, [])
    else
      let embeddings := texts_to_encode.map enc
      .ok (texts, reexpand D texts embeddings)

/-- A concrete encoder used to instantiate theorems about the embedding
generator: it records the text's length as a one-entry vector. -/
def encW : String → Vec := fun t => [(t.length : ℚ)]

/-! ## Configuration loader (ingest_data.py lines 14–16, query_engline.py 7–9) -/

/-- An environment: which variables are set, and to what. -/
abbrev Env := String → Option String

/-- `os.getenv(name, default)`: the variable's value when set, the literal
default otherwise. -/
def getenv (env : Env) (name default_ : String) : String :=
  (env name).getD default_

/-- `MODEL_NAME = os.getenv("EMBEDDING_MODEL", "nomic-ai/modernbert-embed-base")`. -/
def MODEL_NAME (env : Env) : String :=
  getenv env "EMBEDDING_MODEL" "nomic-ai/modernbert-embed-base"

/-- `MILVUS_URI = os.getenv("MILVUS_URI", "http://localhost:19530")` — the same
expression configures the `MilvusClient` in query_engline.py. -/
def MILVUS_URI (env : Env) : String :=
  getenv env "MILVUS_URI" "http://localhost:19530"

/-- `COLLECTION_NAME = os.getenv("COLLECTION_NAME", "modernbert_search")`. -/
def COLLECTION_NAME (env : Env) : String :=
  getenv env "COLLECTION_NAME" "modernbert_search"

/-! ## Bulk loader (ingest_data.py lines 153–186)

The insert loop walks `range(0, len(embeddings_ds), batch_size)` with
`batch_size = 100`, submits one `client.insert` per start index, and on an
exception logs `i // batch_size + 1` with the error and breaks; afterwards
`client.flush` runs once.  The Milvus client's per-call outcome is modelled
by `insertOk : Nat → Bool` (indexed by the 0-based batch number), and the
calls the loop makes become a list of events. -/

/-- One observable call of the loading phase. -/
inductive Event where
  | insertCall (size : Nat)
  | insertError (loggedIndex : Nat)
  | flush
deriving DecidableEq, Repr

/-- Whether an event is the flush call. -/
def Event.isFlush : Event → Bool
  | .flush => true
  | _ => false

/-- The start indices of `range(0, n, bs)` (for `bs > 0`). -/
def batchStarts (n bs : Nat) : List Nat :=
  (List.range ((n + bs - 1) / bs)).map (· * bs)

/-- The insert loop (lines 158–181): one `insertCall` of the batch's size
(`min (i + bs) n - i` records, from `batch_indices = range(i, min(i + batch_size,
len(embeddings_ds)))`) per start index while inserts succeed; on the first
failure, one `insertError` carrying the logged index `i // batch_size + 1`,
and the loop breaks. -/
def insertLoop (insertOk : Nat → Bool) (n bs : Nat) : List Nat → List Event
  | [] => []
  | i :: rest =>
    if insertOk (i / bs) then
      Event.insertCall (min (i + bs) n - i) :: insertLoop insertOk n bs rest
    else
      [Event.insertError (i / bs + 1)]

/-- The whole loading phase for `n` records: the insert loop over
`range(0, n, bs)` followed by the single `client.flush` call (line 185),
which runs whether or not the loop broke early. -/
def bulkLoad (insertOk : Nat → Bool) (n bs : Nat) : List Event :=
  insertLoop insertOk n bs (batchStarts n bs) ++ [Event.flush]

/-! ## The embedding stage as part of the run (ingest_data.py line 85)

`small_dataset.map(generate_embeddings_batch, batched=True, batch_size=32)`
applies the generator to every batch; an exception raised in any batch
propagates and aborts the script before step 5 (the insert loop) is reached. -/

/-- How an ingestion run ends. -/
inductive RunOutcome where
  | aborted (msg : String)
  | completed
deriving DecidableEq, Repr

/-- The observable shape of a run: the insert-phase events and the outcome. -/
structure IngestTrace where
  inserts : List Event
  outcome : RunOutcome
deriving DecidableEq, Repr

/-- Apply `generate_embeddings_batch` to every batch in order, stopping at
the first raised error (the `datasets.map` call of line 85). -/
def embedAllBatches (enc : String → Vec) (D : Nat) :
    List (Option (List String)) → Except String (List (List String × List Vec))
  | [] => .ok []
  | b :: bs =>
    match generate_embeddings_batch enc D b with
    | .error e => .error e
    | .ok r =>
      match embedAllBatches enc D bs with
      | .error e => .error e
      | .ok rs => .ok (r :: rs)

/-- The run from the embedding stage through the loading phase: if any batch
raises, the run aborts with that error and no insert call is made; otherwise
the bulk loader runs over all embedded records with insert batch size 100. -/
def ingestRun (enc : String → Vec) (D : Nat)
    (batches : List (Option (List String))) (insertOk : Nat → Bool) : IngestTrace :=
  match embedAllBatches enc D batches with
  | .error e => { inserts := [], outcome := .aborted e }
  | .ok outs =>
    { inserts := bulkLoad insertOk ((outs.map fun o => o.1.length).sum) 100
      outcome := .completed }

/-! ## Collection provisioner (ingest_data.py lines 100–149)

The Milvus database is modelled as a map from collection names to
collections; `has_collection`, `drop_collection` and `create_collection`
are the client calls the script makes. -/

/-- The Milvus field datatypes the script uses. -/
inductive MilvusDataType where
  | INT64
  | VARCHAR
  | FLOAT_VECTOR
deriving DecidableEq, Repr

/-- One `schema.add_field(...)` declaration. -/
structure FieldSchema where
  field_name : String
  datatype : MilvusDataType
  is_primary : Bool
  max_length : Option Nat
  dim : Option Nat
deriving DecidableEq, Repr

/-- The collection schema: `MilvusClient.create_schema(auto_id=True,
enable_dynamic_field=False)` plus its added fields. -/
structure CollectionSchema where
  auto_id : Bool
  enable_dynamic_field : Bool
  fields : List FieldSchema
deriving DecidableEq, Repr

/-- One `index_params.add_index(...)` declaration. -/
structure IndexSpec where
  field_name : String
  index_type : String
  metric_type : String
deriving DecidableEq, Repr

/-- One insert payload row (lines 164–172): the four client-supplied fields;
`id` is server-assigned and absent. -/
structure InsertRow where
  title : String
  abstract : String
  text : String
  dense_vector : Vec
deriving DecidableEq, Repr

/-- A provisioned collection: its schema, its indexes, and its rows. -/
structure Collection where
  schema : CollectionSchema
  indexes : List IndexSpec
  rows : List InsertRow
deriving DecidableEq, Repr

/-- The database's collections, by name. -/
abbrev DBState := String → Option Collection

/-- `client.has_collection(name)`. -/
def has_collection (db : DBState) (name : String) : Bool :=
  (db name).isSome

/-- `client.drop_collection(name)`. -/
def drop_collection (db : DBState) (name : String) : DBState :=
  fun n => if n = name then none else db n

/-- `client.create_collection(collection_name, schema, index_params)`: a new,
empty collection under the name. -/
def create_collection (db : DBState) (name : String)
    (schema : CollectionSchema) (index_params : List IndexSpec) : DBState :=
  fun n => if n = name then some { schema := schema, indexes := index_params, rows := [] } else db n

/-- `max_text_length = 65530` (line 101), the safe default VARCHAR cap. -/
def max_text_length : Nat := 65530

/-- The schema the script declares (lines 119–130): auto-id on, dynamic
fields off, and the five `add_field` calls in order. -/
def ingestSchema (D : Nat) : CollectionSchema :=
  { auto_id := true
    enable_dynamic_field := false
    fields := [
      { field_name := "id", datatype := .INT64, is_primary := true,
        max_length := none, dim := none },
      { field_name := "title", datatype := .VARCHAR, is_primary := false,
        max_length := some 1024, dim := none },
      { field_name := "abstract", datatype := .VARCHAR, is_primary := false,
        max_length := some max_text_length, dim := none },
      { field_name := "text", datatype := .VARCHAR, is_primary := false,
        max_length := some max_text_length, dim := none },
      { field_name := "dense_vector", datatype := .FLOAT_VECTOR, is_primary := false,
        max_length := none, dim := some D } ] }

/-- The one index the script declares (lines 137–141). -/
def denseVectorIndex : IndexSpec :=
  { field_name := "dense_vector", index_type := "AUTOINDEX", metric_type := "COSINE" }

/-- The provisioning block (lines 113–149): drop the collection if present,
then create it with the declared schema and index. -/
def provisionCollection (db : DBState) (name : String) (D : Nat) : DBState :=
  let db1 := if has_collection db name then drop_collection db name else db
  create_collection db1 name (ingestSchema D) [denseVectorIndex]

/-! ## Post-load verification and title export (ingest_data.py lines 189–211)

Two consecutive `try`/`except` blocks: verification (`load_collection`, then
the count query) and the title export.  Each external outcome is a Boolean
parameter; what the blocks do becomes a list of events, and the script
reaching its final line becomes `finished`. -/

/-- One observable step of the run's tail. -/
inductive TailEvent where
  | load_collection
  | count_query
  | verification_error_logged
  | write_titles (count : Nat)
  | export_error_logged
deriving DecidableEq, Repr

/-- The verification `try` block (lines 189–196): on success the collection
is loaded and the count query issued; any raised error is caught and logged. -/
def verificationStep (verifyOk : Bool) : List TailEvent :=
  if verifyOk then [.load_collection, .count_query] else [.verification_error_logged]

/-- The title-export `try` block (lines 199–210): on success one
`write_titles` of every title; any raised error is caught and logged. -/
def titleExportStep (exportOk : Bool) (titles : List String) : List TailEvent :=
  if exportOk then [.write_titles titles.length] else [.export_error_logged]

/-- The tail of the run: events of both blocks and whether the script reached
its final line. -/
structure RunTail where
  events : List TailEvent
  finished : Bool
deriving DecidableEq, Repr

/-- The run's tail: verification, then title export, then the final print —
neither block can abort the run. -/
def postLoadTail (verifyOk exportOk : Bool) (titles : List String) : RunTail :=
  { events := verificationStep verifyOk ++ titleExportStep exportOk titles
    finished := true }

/-! ## Title exporter file content (ingest_data.py lines 203–207)

`open(titles_file, "w", encoding="utf-8")` truncates the file, then the loop
writes `f"{title}\n"` per record.  The file is a character list. -/

/-- The characters the export loop writes: each title followed by a newline,
in corpus order. -/
def titlesFileContent : List String → List Char
  | [] => []
  | t :: ts => t.toList ++ '\n' :: titlesFileContent ts

/-- Writing `indexed_titles.txt`: mode `"w"` truncates, so the result ignores
the file's prior content entirely. -/
def writeTitlesFile (prior : List Char) (titles : List String) : List Char :=
  titlesFileContent titles

/-- The lines of a character buffer: maximal newline-free segments, the
newline terminating each line (a final segment without a terminator also
counts as a line; a terminated final line adds no empty line after it). -/
def splitLines : List Char → List (List Char)
  | [] => []
  | c :: cs =>
    if c = '\n' then [] :: splitLines cs
    else
      match splitLines cs with
      | [] => [[c]]
      | l :: ls => (c :: l) :: ls

/-! ## Corpus sampling (ingest_data.py line 40)

`train_ds.shuffle(seed=57).select(range(1000))`.  The `datasets` shuffle is a
deterministic permutation generator seeded by the given integer; it is
modelled by a pure seeded shuffle (a linear-congruential generator driving
index extraction).  `runId` stands for everything that distinguishes two
independent runs (process, time); the sampling never consults it. -/

/-- One step of a 64-bit linear congruential generator. -/
def lcgNext (s : Nat) : Nat :=
  (6364136223846793005 * s + 1442695040888963407) % 2 ^ 64

/-- Seeded index-extraction shuffle (fuel-driven; fuel starts at the list
length, so every element is extracted exactly once). -/
def shuffleAux {α : Type} : Nat → Nat → List α → List α
  | 0, _, _ => []
  | _ + 1, _, [] => []
  | fuel + 1, s, a :: rest =>
    (a :: rest).get ⟨s % (a :: rest).length, Nat.mod_lt _ (Nat.succ_pos _)⟩ ::
      shuffleAux fuel (lcgNext s) ((a :: rest).eraseIdx (s % (a :: rest).length))

/-- `dataset.shuffle(seed)`: a permutation of the rows fully determined by
the seed and the rows. -/
def shuffle {α : Type} (seed : Nat) (l : List α) : List α :=
  shuffleAux l.length (lcgNext seed) l

/-- `small_dataset = train_ds.shuffle(seed=57).select(range(1000))` (line 40),
as performed by a run identified by `runId`. -/
def sampleCorpus (runId : Nat) (corpus : List RawRecord) : List RawRecord :=
  (shuffle 57 corpus).take 1000

end ModernBertSearch

namespace ModernBertSearch

/-! ## Helper lemmas -/

/-- The re-expansion of the one-call encodings of the filtered texts is the
pointwise image of the original column: the encoder output for each non-empty
text, the `D`-zero vector for each empty one. -/
theorem reexpand_filter_map (enc : String → Vec) (D : Nat) :
    ∀ ts : List String,
      reexpand D ts ((ts.filter (fun t => !(t == ""))).map enc) =
        ts.map (fun t => if t == "" then List.replicate D 0 else enc t) := by
  intro ts
  induction ts with
  | nil => rfl
  | cons t ts ih =>
    by_cases h : t = ""
    · subst h
      simpa [reexpand, List.filter_cons] using ih
    · have hb : (t == "") = false := by simpa using h
      simp [reexpand, List.filter_cons, hb, ih, h]

/-- `generate_embeddings_batch` never raises on a batch whose `text` column
is present. -/
theorem generate_embeddings_batch_some_ok (enc : String → Vec) (D : Nat)
    (texts : List String) :
    ∃ r, generate_embeddings_batch enc D (some texts) = .ok r := by
  cases h : (texts.filter (fun t => !(t == ""))).isEmpty <;>
    simp [generate_embeddings_batch, h]

/-- The insert loop in closed form: one insert per start index while the
client succeeds, then — when a start index remains — the single logged error
for it, and nothing after. -/
theorem insertLoop_eq (insertOk : Nat → Bool) (n bs : Nat) :
    ∀ starts : List Nat,
      insertLoop insertOk n bs starts =
        ((starts.takeWhile fun i => insertOk (i / bs)).map
          fun i => Event.insertCall (min (i + bs) n - i)) ++
        (match starts.dropWhile (fun i => insertOk (i / bs)) with
         | [] => []
         | i :: _ => [Event.insertError (i / bs + 1)]) := by
  intro starts
  induction starts with
  | nil => rfl
  | cons i rest ih =>
    cases h : insertOk (i / bs) with
    | true => simp [insertLoop, h, List.takeWhile_cons, List.dropWhile_cons, ih]
    | false => simp [insertLoop, h, List.takeWhile_cons, List.dropWhile_cons]

/-- The insert loop itself never flushes. -/
theorem insertLoop_countP_flush (insertOk : Nat → Bool) (n bs : Nat) :
    ∀ starts : List Nat,
      (insertLoop insertOk n bs starts).countP Event.isFlush = 0 := by
  intro starts
  induction starts with
  | nil => rfl
  | cons i rest ih =>
    cases h : insertOk (i / bs) with
    | true => simp [insertLoop, h, List.countP_cons, Event.isFlush, ih]
    | false => simp [insertLoop, h, List.countP_cons, Event.isFlush]

/-- The embedding map raises the missing-column error as soon as any batch
lacks the `text` column. -/
theorem embedAllBatches_missing (enc : String → Vec) (D : Nat) :
    ∀ batches : List (Option (List String)), none ∈ batches →
      embedAllBatches enc D batches =
        .error "Input batch must contain a 'text' column." := by
  intro batches
  induction batches with
  | nil => intro h; cases h
  | cons b bs ih =>
    intro h
    cases b with
    | none => rfl
    | some texts =>
      have hb : none ∈ bs := by
        rcases List.mem_cons.1 h with h1 | h2
        · exact absurd h1 (by simp)
        · exact h2
      obtain ⟨r, hr⟩ := generate_embeddings_batch_some_ok enc D texts
      simp [embedAllBatches, hr, ih hb]

/-- Appending a newline-terminated, newline-free segment in front of a buffer
prepends exactly one line. -/
theorem splitLines_append (rest : List Char) :
    ∀ cs : List Char, (∀ c ∈ cs, c ≠ '\n') →
      splitLines (cs ++ '\n' :: rest) = cs :: splitLines rest := by
  intro cs
  induction cs with
  | nil => intro _; simp [splitLines]
  | cons c cs ih =>
    intro h
    have hc : c ≠ '\n' := h c (List.mem_cons_self c cs)
    have ih' := ih (fun x hx => h x (List.mem_cons_of_mem c hx))
    simp [splitLines, hc, ih']

/-- With newline-free titles, the written buffer's lines are exactly the
titles, in order, with no extra line. -/
theorem splitLines_titlesFileContent :
    ∀ titles : List String, (∀ t ∈ titles, '\n' ∉ t.toList) →
      splitLines (titlesFileContent titles) = titles.map String.toList := by
  intro titles
  induction titles with
  | nil => intro _; rfl
  | cons t ts ih =>
    intro h
    have hh : ∀ c ∈ t.toList, c ≠ '\n' := by
      intro c hc hceq
      exact (h t (List.mem_cons_self t ts)) (hceq ▸ hc)
    have ih' := ih (fun x hx => h x (List.mem_cons_of_mem t hx))
    show splitLines (t.toList ++ '\n' :: titlesFileContent ts) = _
    rw [splitLines_append (titlesFileContent ts) t.toList hh, ih', List.map_cons]

/-! ## Claim theorems -/

/-- C2: the derived `text` field is the literal prefix `"search_document:"`,
one space, the title, one space, and the abstract; on `title="Foo"`,
`abstract="Bar"` it is exactly `"search_document: Foo Bar"`. -/
theorem combine_text_spec :
    (∀ title abstract : String,
      (combine_text ⟨title, abstract⟩).text =
        "search_document:" ++ " " ++ title ++ " " ++ abstract) ∧
    (combine_text ⟨"Foo", "Bar"⟩).text = "search_document: Foo Bar" := by
  refine ⟨fun title abstract => rfl, ?_⟩
  decide

/-- C1 (amended): on a batch whose `text` column contains at least one
non-empty text, `generate_embeddings_batch` returns the batch with an
`embeddings` column of the same length, in batch order: each non-empty text
receives the encoder's vector for that text (matching a direct single-text
encode) and each empty text receives the `D`-zero vector. -/
theorem generate_embeddings_batch_reexpands (enc : String → Vec) (D : Nat)
    (texts : List String) (h : ∃ t ∈ texts, t ≠ "") :
    generate_embeddings_batch enc D (some texts) =
      .ok (texts, texts.map (fun t => if t == "" then List.replicate D 0 else enc t)) := by
  obtain ⟨t, ht, hne⟩ := h
  have hmem : t ∈ texts.filter (fun t => !(t == "")) :=
    List.mem_filter.2 ⟨ht, by simpa using hne⟩
  have hfil : texts.filter (fun t => !(t == "")) ≠ [] := List.ne_nil_of_mem hmem
  have hemp : (texts.filter (fun t => !(t == ""))).isEmpty = false := by
    simpa [List.isEmpty_iff] using hfil
  simp [generate_embeddings_batch, hemp, reexpand_filter_map]

/-- Witness for C1 (amended) at the concrete batch `["hi", ""]` with `D = 3`. -/
theorem generate_embeddings_batch_reexpands_witness :
    generate_embeddings_batch encW 3 (some ["hi", ""]) =
      .ok (["hi", ""],
        (["hi", ""] : List String).map
          (fun t => if t == "" then List.replicate 3 (0 : ℚ) else encW t)) :=
  generate_embeddings_batch_reexpands encW 3 ["hi", ""] ⟨"hi", by decide⟩

/-- Counterexample to C1 as stated: on the batch whose only record has empty
text (`D = 3`), the embeddings column is `[]` — the empty-text record does
not receive a vector of `D` zeros. -/
theorem generate_embeddings_batch_allEmpty_cex :
    generate_embeddings_batch encW 3 (some [""]) = .ok ([""], []) ∧
    generate_embeddings_batch encW 3 (some [""]) ≠
      .ok ([""], [List.replicate 3 (0 : ℚ)]) := by
  constructor
  · rfl
  · intro hcontra
    simp [generate_embeddings_batch] at hcontra

/-- C10 (amended): on a batch whose `text` column is present but all of whose
texts are empty, the generator assigns the empty embeddings list and returns
without consulting the encoder (the result does not depend on `enc`); when
such a batch has at least one record, its embeddings column is strictly
shorter than the batch. -/
theorem generate_embeddings_batch_allEmpty (enc : String → Vec) (D : Nat)
    (texts : List String) (h : ∀ t ∈ texts, t = "") :
    generate_embeddings_batch enc D (some texts) = .ok (texts, []) ∧
    (texts ≠ [] → ([] : List Vec).length < texts.length) := by
  have hfil : texts.filter (fun t => !(t == "")) = [] := by
    simp only [List.filter_eq_nil_iff]
    intro t ht
    simp [h t ht]
  refine ⟨?_, ?_⟩
  · simp [generate_embeddings_batch, hfil]
  · intro hne
    simpa [List.length_pos] using hne

/-- Witness for C10 (amended) at the concrete batch `["", ""]` with `D = 3`. -/
theorem generate_embeddings_batch_allEmpty_witness :
    generate_embeddings_batch encW 3 (some ["", ""]) = .ok (["", ""], []) ∧
    ([] : List Vec).length < (["", ""] : List String).length := by
  have h := generate_embeddings_batch_allEmpty encW 3 ["", ""] (by decide)
  exact ⟨h.1, h.2 (by decide)⟩

/-- Counterexample to C10 as stated: the empty batch (zero records, `text`
column present) has every text vacuously empty, yet its embeddings column
(length 0) is not shorter than the batch (length 0). -/
theorem generate_embeddings_batch_emptyBatch_cex :
    generate_embeddings_batch encW 3 (some []) = .ok ([], []) ∧
    ¬ (([] : List Vec).length < ([] : List String).length) :=
  ⟨rfl, by decide⟩

/-- C5: in every environment in which a variable is absent the configuration
loader resolves it to its literal default (the loader is a total function —
no error path exists), and in every environment in which a variable is
present its value is passed through unchanged. -/
theorem config_loader_defaults (env : Env) :
    (env "EMBEDDING_MODEL" = none →
      MODEL_NAME env = "nomic-ai/modernbert-embed-base") ∧
    (env "MILVUS_URI" = none → MILVUS_URI env = "http://localhost:19530") ∧
    (env "COLLECTION_NAME" = none → COLLECTION_NAME env = "modernbert_search") ∧
    (∀ v : String, env "EMBEDDING_MODEL" = some v → MODEL_NAME env = v) ∧
    (∀ v : String, env "MILVUS_URI" = some v → MILVUS_URI env = v) ∧
    (∀ v : String, env "COLLECTION_NAME" = some v → COLLECTION_NAME env = v) := by
  refine ⟨fun h => ?_, fun h => ?_, fun h => ?_,
    fun v h => ?_, fun v h => ?_, fun v h => ?_⟩ <;>
    simp [getenv, MODEL_NAME, MILVUS_URI, COLLECTION_NAME, h]

/-- Witness for C5 at concrete environments: the all-absent environment for
the three defaults, and all-present environments for pass-through. -/
theorem config_loader_defaults_witness :
    MODEL_NAME (fun _ => none) = "nomic-ai/modernbert-embed-base" ∧
    MILVUS_URI (fun _ => none) = "http://localhost:19530" ∧
    COLLECTION_NAME (fun _ => none) = "modernbert_search" ∧
    MODEL_NAME (fun _ => some "m") = "m" ∧
    MILVUS_URI (fun _ => some "u") = "u" ∧
    COLLECTION_NAME (fun _ => some "c") = "c" :=
  ⟨(config_loader_defaults (fun _ => none)).1 rfl,
   (config_loader_defaults (fun _ => none)).2.1 rfl,
   (config_loader_defaults (fun _ => none)).2.2.1 rfl,
   (config_loader_defaults (fun _ => some "m")).2.2.2.1 "m" rfl,
   (config_loader_defaults (fun _ => some "u")).2.2.2.2.1 "u" rfl,
   (config_loader_defaults (fun _ => some "c")).2.2.2.2.2 "c" rfl⟩

/-- C3: the bulk loader partitions 250 records into insert calls of sizes
100, 100, 50; with a failure on the second call it stops after logging index
2 without attempting the third, yet still flushes; in general the flush call
happens exactly once, and the trace is: one insert per batch while inserts
succeed, then the logged error for the first failing batch (and nothing
further) — all followed by the single flush. -/
theorem bulk_loader_spec (insertOk : Nat → Bool) :
    bulkLoad (fun _ => true) 250 100 =
      [.insertCall 100, .insertCall 100, .insertCall 50, .flush] ∧
    bulkLoad (fun k => !(k == 1)) 250 100 =
      [.insertCall 100, .insertError 2, .flush] ∧
    (∀ n, (bulkLoad insertOk n 100).countP Event.isFlush = 1) ∧
    (∀ n, bulkLoad insertOk n 100 =
      (((batchStarts n 100).takeWhile fun i => insertOk (i / 100)).map
        fun i => Event.insertCall (min (i + 100) n - i)) ++
      (match (batchStarts n 100).dropWhile (fun i => insertOk (i / 100)) with
       | [] => []
       | i :: _ => [Event.insertError (i / 100 + 1)]) ++ [Event.flush]) := by
  refine ⟨by decide, by decide, fun n => ?_, fun n => ?_⟩
  · simp [bulkLoad, List.countP_append, insertLoop_countP_flush, Event.isFlush]
  · simp [bulkLoad, insertLoop_eq]

/-- C4: a batch with no `text` column aborts the whole run with the raised
`ValueError` message (the MissingData contract violation) before any insert
call is made: the trace holds no insert events at all. -/
theorem ingestRun_missing_text_aborts (enc : String → Vec) (D : Nat)
    (batches : List (Option (List String))) (insertOk : Nat → Bool)
    (h : none ∈ batches) :
    ingestRun enc D batches insertOk =
      { inserts := [], outcome := .aborted "Input batch must contain a 'text' column." } := by
  simp [ingestRun, embedAllBatches_missing enc D batches h]

/-- Witness for C4 at a concrete run of two batches, the second lacking the
`text` column. -/
theorem ingestRun_missing_text_aborts_witness :
    ingestRun encW 3 [some ["a"], none] (fun _ => true) =
      { inserts := [], outcome := .aborted "Input batch must contain a 'text' column." } :=
  ingestRun_missing_text_aborts encW 3 [some ["a"], none] (fun _ => true) (by decide)

/-- C8: provisioning is idempotent as an end state — a second run leaves the
database exactly as the first did — and the provisioned name holds an empty
collection with the declared five-field schema (auto-id INT64 primary `id`,
VARCHAR `title` capped at 1024, VARCHAR `abstract` and `text` capped at
65530, FLOAT_VECTOR `dense_vector` of width `D`, dynamic fields disabled)
and the COSINE AUTOINDEX on `dense_vector`. -/
theorem provisionCollection_idempotent (db : DBState) (name : String) (D : Nat) :
    provisionCollection (provisionCollection db name D) name D =
      provisionCollection db name D ∧
    provisionCollection db name D name = some
      { schema :=
          { auto_id := true
            enable_dynamic_field := false
            fields := [
              { field_name := "id", datatype := .INT64, is_primary := true,
                max_length := none, dim := none },
              { field_name := "title", datatype := .VARCHAR, is_primary := false,
                max_length := some 1024, dim := none },
              { field_name := "abstract", datatype := .VARCHAR, is_primary := false,
                max_length := some 65530, dim := none },
              { field_name := "text", datatype := .VARCHAR, is_primary := false,
                max_length := some 65530, dim := none },
              { field_name := "dense_vector", datatype := .FLOAT_VECTOR, is_primary := false,
                max_length := none, dim := some D } ] }
        indexes := [{ field_name := "dense_vector", index_type := "AUTOINDEX",
                      metric_type := "COSINE" }]
        rows := [] } := by
  constructor
  · funext n
    by_cases hn : n = name <;>
      simp [provisionCollection, create_collection, drop_collection, has_collection, hn]
  · simp [provisionCollection, create_collection, ingestSchema, denseVectorIndex,
      max_text_length]

/-- C9: verification is advisory — the run's tail finishes whatever the
verification outcome, the events after the verification block do not depend
on that outcome, and the title-export step is reached (on a successful
export, the titles are written). -/
theorem verification_advisory (vA vB exportOk : Bool) (titles : List String) :
    (postLoadTail vA exportOk titles).finished = true ∧
    (postLoadTail vA exportOk titles).finished = (postLoadTail vB exportOk titles).finished ∧
    ((postLoadTail vA exportOk titles).events.drop (verificationStep vA).length =
      (postLoadTail vB exportOk titles).events.drop (verificationStep vB).length) ∧
    TailEvent.write_titles titles.length ∈ (postLoadTail vA true titles).events := by
  cases vA <;> cases vB <;> cases exportOk <;>
    simp [postLoadTail, verificationStep, titleExportStep]

/-- C6 (amended): the exporter's output ignores the file's prior contents
entirely (mode `"w"`), unconditionally; and, provided no title contains a
newline character, the written file consists of exactly one line per record,
in corpus order, each line the record's title, with no trailing blank line
beyond the final newline. -/
theorem title_exporter_spec (prior priorB : List Char) (titles : List String) :
    writeTitlesFile prior titles = writeTitlesFile priorB titles ∧
    ((∀ t ∈ titles, '\n' ∉ t.toList) →
      splitLines (writeTitlesFile prior titles) = titles.map String.toList) :=
  ⟨rfl, fun h => splitLines_titlesFileContent titles h⟩

/-- Witness for C6 (amended) at two distinct prior contents and the corpus
`["Foo", "Bar"]`. -/
theorem title_exporter_spec_witness :
    writeTitlesFile "old contents".toList ["Foo", "Bar"] =
      writeTitlesFile [] ["Foo", "Bar"] ∧
    splitLines (writeTitlesFile "old contents".toList ["Foo", "Bar"]) =
      (["Foo", "Bar"] : List String).map String.toList :=
  ⟨(title_exporter_spec "old contents".toList [] ["Foo", "Bar"]).1,
   (title_exporter_spec "old contents".toList [] ["Foo", "Bar"]).2 (by decide)⟩

/-- Counterexample to C6 as stated: a title containing an embedded newline
(`"a\nb"`) produces two lines in the file for its single record. -/
theorem title_exporter_newline_cex :
    splitLines (writeTitlesFile [] ["a\nb"]) = [['a'], ['b']] ∧
    (["a\nb"] : List String).length = 1 ∧
    (splitLines (writeTitlesFile [] ["a\nb"])).length ≠
      (["a\nb"] : List String).length := by
  refine ⟨by decide, by decide, by decide⟩

/-- C7: corpus sampling is deterministic — two independent runs (any two run
identities) over the same corpus snapshot select identical rows in identical
order. -/
theorem sampleCorpus_deterministic (runA runB : Nat) (corpus : List RawRecord) :
    sampleCorpus runA corpus = sampleCorpus runB corpus := rfl

end ModernBertSearch
